import Mathlib

/-!
Shallow embedding of the authentication core of the admin-panel wasm client
(`src/controller/auth_manager`): the `AuthManager` state machine
(`mod.rs`), its `PKCE` challenge material and persistence (`pkce.rs`), the
error type (`auth_error.rs`), and the redirect-response parsing
(`AuthManager::get_response`).

External collaborators are out of the core's scope and are modelled as
injected, assumed-correct parameters:
* the browser storage medium (`web_sys::Storage`) is a total key-value map
  (its own `JsValue` read/write failures never occur in this model);
* the network token exchange (`CoreClient::exchange_code` +
  `request_async`) is a function supplied in `Client`;
* ID-token cryptography (`IdToken::claims` signature/nonce verification,
  `IdToken::signing_alg`, `AccessTokenHash::from_token`) is supplied by
  `IdTokenM` and `CryptoEnv`;
* the randomness and URL construction of `init_authentication`
  (`PkceCodeChallenge::new_random_sha256`, `CoreClient::authorize_url`) is
  supplied as the sampled values in `Fresh`;
* URL parsing is out of scope: a `Url` is its parsed query-pair list.
-/

/-- Source `AuthError` (auth_error.rs): an error carrying a human-readable cause. -/
structure AuthError where
  cause : String
deriving DecidableEq, Repr

/-- The `AuthError::from` cause-string conversion (`from` is a Lean keyword). -/
def AuthError.ofCause (cause : String) : AuthError := ⟨cause⟩

/-- Error of `exchange_token` when loading from the given store fails (mod.rs:234). -/
def couldNotLoadErr : AuthError :=
  AuthError.ofCause "Could not load data from given store!"

/-- Error of `exchange_token` when no pkce data and no storage are given (mod.rs:240). -/
def noInitErr : AuthError :=
  AuthError.ofCause "No authentication process was initiated!"

/-- Error of `exchange_token` when the session holds no client (mod.rs:252). -/
def noClientAuthErr : AuthError :=
  AuthError.ofCause "No client was setup to authenticate!"

/-- Error of `exchange_token` on a CSRF state mismatch (mod.rs:264). -/
def csrfMismatchErr : AuthError :=
  AuthError.ofCause "Cross-Site Request Forgery detected! The returned state did not match!"

/-- Error of `exchange_token` when the provider returned no id token (mod.rs:291). -/
def missingIdTokenErr : AuthError :=
  AuthError.ofCause "The server did not respond with an id token!"

/-- Error of `exchange_token` when the access-token hash check fails (mod.rs:328). -/
def tamperErr : AuthError :=
  AuthError.ofCause "The used and expected hash algorithms are not the same!"

/-- Error of `init_authentication` when the session holds no client (mod.rs:184). -/
def noClientInitErr : AuthError :=
  AuthError.ofCause "No client was setup!"

/-- Error of `PKCE::load_from` when a storage key is absent (pkce.rs:122). -/
def noAuthDataErr : AuthError :=
  AuthError.ofCause "No authentication data in storage found!"

/-- Error of `get_response` on an empty query (mod.rs:371). -/
def emptyResponseErr : AuthError :=
  AuthError.ofCause "No response is present in the given url!"

/-- Error of `get_response` when the `code` parameter is absent (mod.rs:378). -/
def missingCodeErr : AuthError :=
  AuthError.ofCause "There was no authorization code present in the provided url!"

/-- Error of `get_response` when the `state` parameter is absent (mod.rs:386). -/
def missingStateErr : AuthError :=
  AuthError.ofCause "There was no state present in the provided url!"

/-- The browser `web_sys::Storage`, as a total map from keys to optional values.
Absence of a key is a valid state distinct from the empty string. -/
structure Storage where
  get : String → Option String

/-- Source `Storage::set`: bind a key to a value. The medium's own write failures are
the excluded collaborator's and never occur in this model. -/
def Storage.set (s : Storage) (key value : String) : Storage :=
  ⟨fun k => if k = key then some value else s.get k⟩

/-- A storage holding no keys at all. -/
def Storage.empty : Storage := ⟨fun _ => none⟩

/-- Source `PKCE` (pkce.rs): the verifier, csrf token and nonce of one attempt.
The `PkceCodeVerifier`, `CsrfToken` and `Nonce` wrappers are their secret
strings. -/
structure PKCE where
  verifier : String
  csrf : String
  nonce : String
deriving DecidableEq, Repr

/-- Source `PKCE::ID_VERIFIER` (pkce.rs:31). -/
def PKCE.ID_VERIFIER : String := "verifier"

/-- Source `PKCE::ID_CSRF` (pkce.rs:32). -/
def PKCE.ID_CSRF : String := "csrf"

/-- Source `PKCE::ID_NONCE` (pkce.rs:33). -/
def PKCE.ID_NONCE : String := "nonce"

/-- Source `PKCE::new` (pkce.rs:50). -/
def PKCE.new (verifier csrf nonce : String) : PKCE :=
  ⟨verifier, csrf, nonce⟩

/-- Source `PKCE::store` (pkce.rs:79): write the three secrets under their keys. -/
def PKCE.store (p : PKCE) (storage : Storage) : Storage :=
  ((storage.set PKCE.ID_VERIFIER p.verifier).set PKCE.ID_CSRF p.csrf).set
    PKCE.ID_NONCE p.nonce

/-- Source `PKCE::load_from` (pkce.rs:110): succeed only when all three keys are
present; any absent key is reported as `noAuthDataErr`. The `Err(e)` arms of
the source match storage-medium read failures, which never occur here. -/
def PKCE.load_from (storage : Storage) : Except AuthError PKCE :=
  match storage.get PKCE.ID_VERIFIER, storage.get PKCE.ID_CSRF,
      storage.get PKCE.ID_NONCE with
  | some verifier, some csrf, some nonce =>
      Except.ok (PKCE.new verifier csrf nonce)
  | _, _, _ => Except.error noAuthDataErr

/-- Source `PKCE::destructure` (pkce.rs:147). -/
def PKCE.destructure (p : PKCE) : String × String × String :=
  (p.verifier, p.csrf, p.nonce)

/-- The claims of a verified ID token (`IdTokenClaims`); the part the core
reads is the optional `at_hash` claim (`claims.access_token_hash()`). -/
structure ClaimsM where
  access_token_hash : Option String

/-- An `IdToken`: its collaborator-provided operations. `claimsFor nonce`
is `id_token.claims(&client.id_token_verifier(), &nonce)` — signature and
nonce verification by the crypto collaborator; `signing_alg` is
`id_token.signing_alg()`, the token's declared signing algorithm. -/
structure IdTokenM where
  claimsFor : String → Except String ClaimsM
  signing_alg : Except String String

/-- The token-endpoint response the core consumes (`TokenResponse`):
`access_token()`, `refresh_token()`, `id_token()`. -/
structure TokenResponse where
  access_token : String
  refresh_token : Option String
  id_token : Option IdTokenM

/-- The `CoreClient`: its single network operation used by `exchange_token`,
`exchange_code(code).set_pkce_verifier(verifier).request_async(...)`,
taking the code and the pkce verifier. -/
structure Client where
  exchange_code : String → String → Except String TokenResponse

/-- The ambient crypto collaborator: `AccessTokenHash::from_token`, hashing
an access token under a signing algorithm. -/
structure CryptoEnv where
  from_token : String → String → Except String String

/-- The sampled values of one `init_authentication` run: the random verifier
(`PkceCodeChallenge::new_random_sha256`), the random csrf token and nonce,
and the authorization URL built by `client.authorize_url(...).url()`. -/
structure Fresh where
  verifier : String
  csrf : String
  nonce : String
  url : String

/-- Source `AuthManager` (mod.rs:46): the session state. -/
structure AuthManager where
  pkce : Option PKCE
  client : Option Client
  id_token : Option IdTokenM
  access_token : Option String
  refresh_token : Option String
  claims : Option ClaimsM

/-- Source `AuthManager::URL_AUTH_CODE` (mod.rs:63). -/
def AuthManager.URL_AUTH_CODE : String := "code"

/-- Source `AuthManager::URL_STATE` (mod.rs:64). -/
def AuthManager.URL_STATE : String := "state"

/-- Source `AuthManager::new` (mod.rs:73); `client_data.create()` is the built client. -/
def AuthManager.new (client : Client) : AuthManager :=
  { pkce := none, client := some client, id_token := none,
    access_token := none, refresh_token := none, claims := none }

/-- Source `AuthManager::store` (mod.rs:106): persist the pkce data when present. -/
def AuthManager.store (m : AuthManager) (storage : Storage) : Storage :=
  match m.pkce with
  | some p => p.store storage
  | none => storage

/-- Source `AuthManager::load` (mod.rs:136): load pkce data into the session. -/
def AuthManager.load (m : AuthManager) (storage : Storage) :
    Except AuthError AuthManager :=
  match PKCE.load_from storage with
  | Except.ok p => Except.ok { m with pkce := some p }
  | Except.error e => Except.error e

/-- Source `AuthManager::init_authentication` (mod.rs:170): on a session with a
client, replace the pkce data with the fresh material, persist it, and
return the authorization URL; without a client, fail before the pkce
assignment (mod.rs:184 returns inside the match, before mod.rs:188). -/
def AuthManager.init_authentication (m : AuthManager) (fresh : Fresh)
    (storage : Storage) : AuthManager × Storage × Except AuthError String :=
  match m.client with
  | none => (m, storage, Except.error noClientInitErr)
  | some _ =>
      let m1 : AuthManager :=
        { m with pkce := some (PKCE.new fresh.verifier fresh.csrf fresh.nonce) }
      (m1, m1.store storage, Except.ok fresh.url)

/-- Success branch of `exchange_token` (mod.rs:334-342): commit the id token,
access token, refresh token and claims onto the session. -/
def AuthManager.exchangeCommit (m : AuthManager) (idt : IdTokenM)
    (tokens : TokenResponse) (claims : ClaimsM) :
    AuthManager × Except AuthError Unit :=
  ({ m with id_token := some idt, access_token := some tokens.access_token,
            refresh_token := tokens.refresh_token, claims := some claims },
   Except.ok ())

/-- Stage of `exchange_token` after the client was taken (mod.rs:256-342).  `m` already
has `client := none` (mod.rs:247) and `pkce := none` (mod.rs:257); `p` is the
destructured pkce data (mod.rs:256). -/
def AuthManager.exchangeVerify (env : CryptoEnv) (m : AuthManager)
    (client : Client) (p : PKCE) (code state : String) :
    AuthManager × Except AuthError Unit :=
  if p.csrf ≠ state then
    (m, Except.error csrfMismatchErr)
  else
    match client.exchange_code code p.verifier with
    | Except.error err => (m, Except.error (AuthError.ofCause err))
    | Except.ok tokens =>
      match tokens.id_token with
      | none => (m, Except.error missingIdTokenErr)
      | some idt =>
        match idt.claimsFor p.nonce with
        | Except.error err => (m, Except.error (AuthError.ofCause err))
        | Except.ok claims =>
          match claims.access_token_hash with
          | none => m.exchangeCommit idt tokens claims
          | some expected =>
            match idt.signing_alg with
            | Except.error err => (m, Except.error (AuthError.ofCause err))
            | Except.ok alg =>
              match env.from_token tokens.access_token alg with
              | Except.error err => (m, Except.error (AuthError.ofCause err))
              | Except.ok actual =>
                if expected ≠ actual then (m, Except.error tamperErr)
                else m.exchangeCommit idt tokens claims

/-- Stage of `exchange_token` once pkce data is held (mod.rs:245-342): take the client
out of the session (mod.rs:247) — on failure here the pkce data stays put
(the unwrap at mod.rs:256 comes after the client match). -/
def AuthManager.exchangeLoaded (env : CryptoEnv) (m : AuthManager) (p : PKCE)
    (code state : String) : AuthManager × Except AuthError Unit :=
  match m.client with
  | none => (m, Except.error noClientAuthErr)
  | some client =>
      AuthManager.exchangeVerify env { m with client := none, pkce := none }
        client p code state

/-- Source `AuthManager::exchange_token` (mod.rs:221): when no pkce data is in
memory, load it from the given storage (mod.rs:229-243, which sets
`self.pkce`), then run the exchange. -/
def AuthManager.exchange_token (env : CryptoEnv) (m : AuthManager)
    (code state : String) (storage : Option Storage) :
    AuthManager × Except AuthError Unit :=
  match m.pkce with
  | some p => AuthManager.exchangeLoaded env m p code state
  | none =>
    match storage with
    | none => (m, Except.error noInitErr)
    | some st =>
      match PKCE.load_from st with
      | Except.error _ => (m, Except.error couldNotLoadErr)
      | Except.ok p =>
          AuthManager.exchangeLoaded env { m with pkce := some p } p code state

/-- A `Url`, reduced to its parsed query pairs (`url.query_pairs()`); URL
parsing itself is the excluded collaborator's. -/
structure Url where
  query_pairs : List (String × String)

/-- Lookup in the `HashMap` that `get_response` collects its query pairs
into (mod.rs:366-369): `std` `HashMap::from_iter` inserts the pairs in
order, so for a repeated key the last occurrence's value wins. -/
def hashMapGet (qs : List (String × String)) (key : String) : Option String :=
  (qs.reverse.find? (fun kv => kv.1 = key)).map (fun kv => kv.2)

/-- Source `AuthManager::get_response` (mod.rs:364): empty query first, then the
`code` parameter, then the `state` parameter. The `AuthorizationCode` and
`CsrfToken` wrappers are their strings. -/
def AuthManager.get_response (url : Url) :
    Except AuthError (String × String) :=
  let queries := url.query_pairs
  if queries.isEmpty then
    Except.error emptyResponseErr
  else
    match hashMapGet queries AuthManager.URL_AUTH_CODE with
    | none => Except.error missingCodeErr
    | some code =>
      match hashMapGet queries AuthManager.URL_STATE with
      | none => Except.error missingStateErr
      | some token => Except.ok (code, token)

/-! Concrete fixtures used to instantiate the theorems below. -/

/-- A client whose network exchange is never reached in the scenarios using it. -/
def stubClient : Client := ⟨fun _ _ => Except.error "stub"⟩

/-- A crypto collaborator that is never reached in the scenarios using it. -/
def stubEnv : CryptoEnv := ⟨fun _ _ => Except.error "stub"⟩

/-- A storage persisting challenge material with csrf token `"abc"`. -/
def stAbc : Storage :=
  ((Storage.empty.set PKCE.ID_VERIFIER "v").set PKCE.ID_CSRF "abc").set
    PKCE.ID_NONCE "n"

/-- A storage holding only the verifier key: a partial record. -/
def stVerifierOnly : Storage := Storage.empty.set PKCE.ID_VERIFIER "v"

/-- A freshly constructed session around `stubClient`. -/
def mFresh : AuthManager := AuthManager.new stubClient

/-- Sampled material for an `init_authentication` run. -/
def fresh0 : Fresh := ⟨"v2", "c2", "n2", "https://idp.example/auth?x=1"⟩

/-- A session left over after a failed attempt: challenge material still in
memory (reloaded from the store) but the client already consumed. -/
def mStuck : AuthManager :=
  { pkce := some (PKCE.new "oldv" "oldc" "oldn"), client := none,
    id_token := none, access_token := none, refresh_token := none,
    claims := none }

/-- An ID token declaring at_hash `"H1"` under signing algorithm `"RS256"`. -/
def idtTamper : IdTokenM :=
  ⟨fun _ => Except.ok ⟨some "H1"⟩, Except.ok "RS256"⟩

/-- A token response whose access token hashes to `"H2"` (see `envTamper`),
not the declared `"H1"`. -/
def tokensTamper : TokenResponse := ⟨"tok1", none, some idtTamper⟩

/-- A client whose code exchange succeeds with `tokensTamper`. -/
def clientTamper : Client := ⟨fun _ _ => Except.ok tokensTamper⟩

/-- A crypto collaborator hashing every access token to `"H2"`. -/
def envTamper : CryptoEnv := ⟨fun _ _ => Except.ok "H2"⟩

/-- A session holding challenge material in memory, around `clientTamper`. -/
def mTamper : AuthManager :=
  { pkce := some (PKCE.new "v" "s" "n"), client := some clientTamper,
    id_token := none, access_token := none, refresh_token := none,
    claims := none }

/-! Helper lemmas shared by the claim theorems. -/

/-- On every error branch of the post-client part of `exchange_token`, the
session is returned exactly as it entered that part. -/
theorem exchangeVerify_error_eq (env : CryptoEnv) (m : AuthManager)
    (client : Client) (p : PKCE) (code state : String) (m' : AuthManager)
    (e : AuthError)
    (h : AuthManager.exchangeVerify env m client p code state
          = (m', Except.error e)) : m' = m := by
  unfold AuthManager.exchangeVerify AuthManager.exchangeCommit at h
  repeat' split at h
  all_goals simp_all

/-- On every error branch of `exchangeLoaded`, the four token/claims fields
of the session are unchanged. -/
theorem exchangeLoaded_error_tokens (env : CryptoEnv) (m : AuthManager)
    (p : PKCE) (code state : String) (m' : AuthManager) (e : AuthError)
    (h : AuthManager.exchangeLoaded env m p code state
          = (m', Except.error e)) :
    m'.id_token = m.id_token ∧ m'.access_token = m.access_token ∧
    m'.refresh_token = m.refresh_token ∧ m'.claims = m.claims := by
  unfold AuthManager.exchangeLoaded at h
  split at h
  · simp_all
  · have h2 := exchangeVerify_error_eq _ _ _ _ _ _ _ _ h
    subst h2
    simp

/-- C3: every `exchange_token` call that returns an error — the OIDC
integrity failures included — leaves the session's `id_token`,
`access_token`, `refresh_token` and `claims` fields exactly as they were
before the call: no partially-applied token set is ever committed, and an
integrity failure never yields one. -/
theorem exchange_token_error_preserves_tokens (env : CryptoEnv)
    (m : AuthManager) (code state : String) (storage : Option Storage)
    (m' : AuthManager) (e : AuthError)
    (h : AuthManager.exchange_token env m code state storage
          = (m', Except.error e)) :
    m'.id_token = m.id_token ∧ m'.access_token = m.access_token ∧
    m'.refresh_token = m.refresh_token ∧ m'.claims = m.claims := by
  unfold AuthManager.exchange_token at h
  split at h
  · exact exchangeLoaded_error_tokens _ _ _ _ _ _ _ h
  · split at h
    · simp_all
    · split at h
      · simp_all
      · have h2 := exchangeLoaded_error_tokens _ _ _ _ _ _ _ h
        simp_all

/-- Witness for C3 at a concrete csrf-mismatch failure. -/
theorem exchange_token_error_preserves_tokens_witness :
    (AuthManager.exchange_token stubEnv mFresh "c" "xyz" (some stAbc)).1.id_token
        = mFresh.id_token ∧
    (AuthManager.exchange_token stubEnv mFresh "c" "xyz" (some stAbc)).1.access_token
        = mFresh.access_token ∧
    (AuthManager.exchange_token stubEnv mFresh "c" "xyz" (some stAbc)).1.refresh_token
        = mFresh.refresh_token ∧
    (AuthManager.exchange_token stubEnv mFresh "c" "xyz" (some stAbc)).1.claims
        = mFresh.claims :=
  exchange_token_error_preserves_tokens stubEnv mFresh "c" "xyz" (some stAbc)
    _ csrfMismatchErr rfl

/-- C1 counterexample: with csrf `"abc"` persisted and response state
`"xyz"`, the first `complete` fails with the CSRF-mismatch error and clears
the in-memory material, but the persisted record is NOT cleared (it still
loads), and the second `complete` with the same response fails with the
no-client error — not with either no-active-challenge error. -/
theorem c1_second_attempt_not_noActiveChallenge :
    (AuthManager.exchange_token stubEnv mFresh "c" "xyz" (some stAbc)).2
        = Except.error csrfMismatchErr
    ∧ (AuthManager.exchange_token stubEnv mFresh "c" "xyz" (some stAbc)).1.pkce
        = none
    ∧ PKCE.load_from stAbc = Except.ok (PKCE.new "v" "abc" "n")
    ∧ (AuthManager.exchange_token stubEnv
        (AuthManager.exchange_token stubEnv mFresh "c" "xyz" (some stAbc)).1
        "c" "xyz" (some stAbc)).2 = Except.error noClientAuthErr
    ∧ noClientAuthErr ≠ noAuthDataErr
    ∧ noClientAuthErr ≠ noInitErr :=
  ⟨rfl, rfl, rfl, rfl, by decide, by decide⟩

/-- C1 (amended): for every session with a client and persisted challenge
material whose csrf token is `"abc"`, `complete` on a response whose state
is `"xyz"` fails with the CSRF-mismatch error, the in-memory challenge
material is cleared and the client consumed (the material is never reused),
but the persisted copy remains in the store, so a subsequent `complete`
with the same response reloads it and fails with the no-client error. -/
theorem c1_csrf_mismatch_flow (env : CryptoEnv) (m : AuthManager)
    (c : Client) (st : Storage) (v n code : String)
    (hpk : m.pkce = none) (hcl : m.client = some c)
    (hv : st.get PKCE.ID_VERIFIER = some v)
    (hc : st.get PKCE.ID_CSRF = some "abc")
    (hn : st.get PKCE.ID_NONCE = some n) :
    (AuthManager.exchange_token env m code "xyz" (some st)).2
        = Except.error csrfMismatchErr
    ∧ (AuthManager.exchange_token env m code "xyz" (some st)).1.pkce = none
    ∧ (AuthManager.exchange_token env m code "xyz" (some st)).1.client = none
    ∧ (AuthManager.exchange_token env
        (AuthManager.exchange_token env m code "xyz" (some st)).1
        code "xyz" (some st)).2 = Except.error noClientAuthErr := by
  have hne : ¬ (("abc" : String) = "xyz") := by decide
  refine ⟨?_, ?_, ?_, ?_⟩ <;>
    simp [AuthManager.exchange_token, AuthManager.exchangeLoaded,
      AuthManager.exchangeVerify, PKCE.load_from, PKCE.new, hpk, hcl, hv, hc,
      hn, hne]

/-- Witness for the amended C1 at the concrete fixtures. -/
theorem c1_csrf_mismatch_flow_witness :
    (AuthManager.exchange_token stubEnv mFresh "c" "xyz" (some stAbc)).2
        = Except.error csrfMismatchErr
    ∧ (AuthManager.exchange_token stubEnv mFresh "c" "xyz" (some stAbc)).1.pkce
        = none
    ∧ (AuthManager.exchange_token stubEnv mFresh "c" "xyz" (some stAbc)).1.client
        = none
    ∧ (AuthManager.exchange_token stubEnv
        (AuthManager.exchange_token stubEnv mFresh "c" "xyz" (some stAbc)).1
        "c" "xyz" (some stAbc)).2 = Except.error noClientAuthErr :=
  c1_csrf_mismatch_flow stubEnv mFresh stubClient stAbc "v" "n" "c"
    rfl rfl rfl rfl rfl

/-- Within the post-client part of `exchange_token`, the client field of the
session is never written again (also not by the success commit). -/
theorem exchangeVerify_client (env : CryptoEnv) (m : AuthManager)
    (client : Client) (p : PKCE) (code state : String) :
    (AuthManager.exchangeVerify env m client p code state).1.client
      = m.client := by
  unfold AuthManager.exchangeVerify AuthManager.exchangeCommit
  repeat' split
  all_goals simp

/-- C2 counterexample: after a failed `complete` (CSRF mismatch), a new
`initiate` does not return Ok: the attempt consumed the client, so
`init_authentication` fails with the no-client error. -/
theorem c2_initiate_fails_after_failed_complete :
    (AuthManager.exchange_token stubEnv mFresh "c" "xyz" (some stAbc)).2
        = Except.error csrfMismatchErr
    ∧ ((AuthManager.exchange_token stubEnv mFresh "c" "xyz"
          (some stAbc)).1.init_authentication fresh0 stAbc).2.2
        = Except.error noClientInitErr :=
  ⟨rfl, rfl⟩

/-- C2 (amended): every failure branch of `exchange_token` returns the
session alongside the error, and a new `initiate` succeeds exactly while the
session still holds its client: failures before the client is taken (no
challenge material and no storage) leave the session — client included —
unchanged, but any attempt holding challenge material consumes the client,
after which `initiate` fails with the no-client error. -/
theorem c2_retry_requires_client :
    (∀ (m : AuthManager) (c : Client) (fresh : Fresh) (st : Storage),
      m.client = some c →
      (m.init_authentication fresh st).2.2 = Except.ok fresh.url)
    ∧ (∀ (m : AuthManager) (fresh : Fresh) (st : Storage),
      m.client = none →
      (m.init_authentication fresh st).2.2 = Except.error noClientInitErr)
    ∧ (∀ (env : CryptoEnv) (m : AuthManager) (code state : String),
      m.pkce = none →
      AuthManager.exchange_token env m code state none
        = (m, Except.error noInitErr))
    ∧ (∀ (env : CryptoEnv) (m : AuthManager) (p : PKCE) (c : Client)
        (code state : String) (storage : Option Storage),
      m.pkce = some p → m.client = some c →
      (AuthManager.exchange_token env m code state storage).1.client
        = none) := by
  refine ⟨?_, ?_, ?_, ?_⟩
  · intro m c fresh st hcl
    simp [AuthManager.init_authentication, hcl]
  · intro m fresh st hcl
    simp [AuthManager.init_authentication, hcl]
  · intro env m code state hpk
    simp [AuthManager.exchange_token, hpk]
  · intro env m p c code state storage hpk hcl
    simp [AuthManager.exchange_token, AuthManager.exchangeLoaded, hpk, hcl,
      exchangeVerify_client]

/-- Witness for the amended C2 at the concrete fixtures. -/
theorem c2_retry_requires_client_witness :
    (mFresh.init_authentication fresh0 stAbc).2.2 = Except.ok fresh0.url
    ∧ (mStuck.init_authentication fresh0 stAbc).2.2
        = Except.error noClientInitErr
    ∧ AuthManager.exchange_token stubEnv mStuck "c" "xyz" none
        ≠ (mStuck, Except.error noInitErr)
    ∧ (AuthManager.exchange_token stubEnv mTamper "c" "bad" none).1.client
        = none := by
  refine ⟨c2_retry_requires_client.1 mFresh stubClient fresh0 stAbc rfl,
    c2_retry_requires_client.2.1 mStuck fresh0 stAbc rfl, ?_,
    c2_retry_requires_client.2.2.2 stubEnv mTamper (PKCE.new "v" "s" "n")
      clientTamper "c" "bad" none rfl rfl⟩
  intro h
  have h2 := congrArg (fun r => r.2) h
  simp only at h2
  exact absurd (congrArg AuthError.cause (Except.error.inj h2)) (by decide)

/-- C9 counterexample: on a session whose client was already consumed but
which still holds prior challenge material (reachable by a second failed
`complete` that reloaded the store), `initiate` does not replace the prior
material: it fails with the no-client error and the old material stays. -/
theorem c9_initiate_without_client_keeps_old_material :
    (mStuck.init_authentication fresh0 Storage.empty).1.pkce
        = some (PKCE.new "oldv" "oldc" "oldn")
    ∧ PKCE.new "oldv" "oldc" "oldn"
        ≠ PKCE.new fresh0.verifier fresh0.csrf fresh0.nonce
    ∧ (mStuck.init_authentication fresh0 Storage.empty).2.2
        = Except.error noClientInitErr :=
  ⟨rfl, by decide, rfl⟩

/-- C9 (amended): `init_authentication` never touches the session's
`id_token`, `access_token`, `refresh_token` and `claims` fields; when the
session still holds a client it replaces any prior challenge material with
the fresh material, and when the client is absent it fails with the
no-client error leaving the whole session — prior material included —
unchanged. -/
theorem c9_initiate_frame (m : AuthManager) (fresh : Fresh) (st : Storage) :
    ((m.init_authentication fresh st).1.id_token = m.id_token
    ∧ (m.init_authentication fresh st).1.access_token = m.access_token
    ∧ (m.init_authentication fresh st).1.refresh_token = m.refresh_token
    ∧ (m.init_authentication fresh st).1.claims = m.claims)
    ∧ (∀ c, m.client = some c →
        (m.init_authentication fresh st).1.pkce
          = some (PKCE.new fresh.verifier fresh.csrf fresh.nonce))
    ∧ (m.client = none → (m.init_authentication fresh st).1 = m) := by
  unfold AuthManager.init_authentication
  cases hm : m.client <;> simp [PKCE.new]

/-- Witness for the amended C9 at the concrete fixtures. -/
theorem c9_initiate_frame_witness :
    (mFresh.init_authentication fresh0 stAbc).1.pkce
      = some (PKCE.new fresh0.verifier fresh0.csrf fresh0.nonce) :=
  (c9_initiate_frame mFresh fresh0 stAbc).2.1 stubClient rfl

/-- C4: whenever parse/load/CSRF/code-exchange succeed, the ID token is
present and verifies, but its declared access-token hash differs from the
hash recomputed over the returned access token under the token's declared
signing algorithm, `exchange_token` fails with the tamper error. -/
theorem c4_at_hash_mismatch_tamper (env : CryptoEnv) (m : AuthManager)
    (client : Client) (p : PKCE) (code state : String)
    (storage : Option Storage) (tokens : TokenResponse) (idt : IdTokenM)
    (claims : ClaimsM) (expected alg actual : String)
    (hpk : m.pkce = some p) (hcl : m.client = some client)
    (hcsrf : p.csrf = state)
    (hex : client.exchange_code code p.verifier = Except.ok tokens)
    (hid : tokens.id_token = some idt)
    (hclaims : idt.claimsFor p.nonce = Except.ok claims)
    (hhash : claims.access_token_hash = some expected)
    (halg : idt.signing_alg = Except.ok alg)
    (hft : env.from_token tokens.access_token alg = Except.ok actual)
    (hne : expected ≠ actual) :
    (AuthManager.exchange_token env m code state storage).2
        = Except.error tamperErr := by
  simp [AuthManager.exchange_token, AuthManager.exchangeLoaded,
    AuthManager.exchangeVerify, hpk, hcl, hcsrf, hex, hid, hclaims, hhash,
    halg, hft, hne]

/-- Witness for C4 at the concrete tamper fixtures. -/
theorem c4_at_hash_mismatch_tamper_witness :
    (AuthManager.exchange_token envTamper mTamper "c" "s" none).2
        = Except.error tamperErr :=
  c4_at_hash_mismatch_tamper envTamper mTamper clientTamper
    (PKCE.new "v" "s" "n") "c" "s" none tokensTamper idtTamper ⟨some "H1"⟩
    "H1" "RS256" "H2" rfl rfl rfl rfl rfl rfl rfl rfl rfl (by decide)

/-- C5: `get_response` checks in the fixed order empty query, then `code`,
then `state`; each case produces its own error, which makes the ordering
observable, and with both parameters present it returns them. -/
theorem c5_get_response_check_order (url : Url) :
    (url.query_pairs = [] →
      AuthManager.get_response url = Except.error emptyResponseErr)
    ∧ (url.query_pairs ≠ [] →
        hashMapGet url.query_pairs AuthManager.URL_AUTH_CODE = none →
        AuthManager.get_response url = Except.error missingCodeErr)
    ∧ (∀ code, url.query_pairs ≠ [] →
        hashMapGet url.query_pairs AuthManager.URL_AUTH_CODE = some code →
        hashMapGet url.query_pairs AuthManager.URL_STATE = none →
        AuthManager.get_response url = Except.error missingStateErr)
    ∧ (∀ code state,
        hashMapGet url.query_pairs AuthManager.URL_AUTH_CODE = some code →
        hashMapGet url.query_pairs AuthManager.URL_STATE = some state →
        AuthManager.get_response url = Except.ok (code, state)) := by
  refine ⟨?_, ?_, ?_, ?_⟩
  · intro h
    simp [AuthManager.get_response, h]
  · intro h hc
    simp [AuthManager.get_response, List.isEmpty_iff, h, hc]
  · intro code h hc hs
    simp [AuthManager.get_response, List.isEmpty_iff, h, hc, hs]
  · intro code state hc hs
    have h : url.query_pairs ≠ [] := by
      intro h0
      rw [h0] at hc
      simp [hashMapGet] at hc
    simp [AuthManager.get_response, List.isEmpty_iff, h, hc, hs]

/-- Witness for C5: a query holding only `state` fails with the
missing-code error (the `code` check precedes the `state` check). -/
theorem c5_get_response_check_order_witness :
    AuthManager.get_response ⟨[("state", "s1")]⟩
      = Except.error missingCodeErr :=
  (c5_get_response_check_order ⟨[("state", "s1")]⟩).2.1 (by decide) rfl

/-- C6: loading challenge material succeeds exactly when all three of
verifier, csrf and nonce are present; any absent key fails closed with the
no-active-challenge error and no partial state, and `complete` before any
`initiate` (empty store) fails leaving the session unchanged. -/
theorem c6_load_requires_all_three :
    (∀ (st : Storage) (v c n : String),
      st.get PKCE.ID_VERIFIER = some v → st.get PKCE.ID_CSRF = some c →
      st.get PKCE.ID_NONCE = some n →
      PKCE.load_from st = Except.ok (PKCE.new v c n))
    ∧ (∀ st : Storage,
      (st.get PKCE.ID_VERIFIER = none ∨ st.get PKCE.ID_CSRF = none ∨
       st.get PKCE.ID_NONCE = none) →
      PKCE.load_from st = Except.error noAuthDataErr)
    ∧ (∀ (env : CryptoEnv) (m : AuthManager) (code state : String),
      m.pkce = none →
      AuthManager.exchange_token env m code state (some Storage.empty)
        = (m, Except.error couldNotLoadErr)) := by
  refine ⟨?_, ?_, ?_⟩
  · intro st v c n hv hc hn
    simp [PKCE.load_from, hv, hc, hn, PKCE.new]
  · intro st h
    unfold PKCE.load_from
    cases hV : st.get PKCE.ID_VERIFIER <;> cases hC : st.get PKCE.ID_CSRF <;>
      cases hN : st.get PKCE.ID_NONCE <;> simp_all
  · intro env m code state hpk
    simp [AuthManager.exchange_token, hpk, PKCE.load_from, Storage.empty]

/-- Witness for C6 at the concrete fixtures. -/
theorem c6_load_requires_all_three_witness :
    PKCE.load_from stAbc = Except.ok (PKCE.new "v" "abc" "n")
    ∧ PKCE.load_from stVerifierOnly = Except.error noAuthDataErr
    ∧ AuthManager.exchange_token stubEnv mFresh "c" "s" (some Storage.empty)
        = (mFresh, Except.error couldNotLoadErr) :=
  ⟨c6_load_requires_all_three.1 stAbc "v" "abc" "n" rfl rfl rfl,
   c6_load_requires_all_three.2.1 stVerifierOnly (Or.inr (Or.inl rfl)),
   c6_load_requires_all_three.2.2 stubEnv mFresh "c" "s" rfl⟩

/-- C7 counterexample: a partial record (only the verifier present) is
reported with exactly the same fixed error as a wholly absent record; no
missing-key-identifying error exists. -/
theorem c7_partial_record_same_error_as_absent :
    PKCE.load_from stVerifierOnly = Except.error noAuthDataErr
    ∧ PKCE.load_from Storage.empty = Except.error noAuthDataErr
    ∧ stVerifierOnly.get PKCE.ID_VERIFIER = some "v"
    ∧ stVerifierOnly.get PKCE.ID_CSRF = none
    ∧ stVerifierOnly.get PKCE.ID_NONCE = none
    ∧ noAuthDataErr.cause = "No authentication data in storage found!" :=
  ⟨rfl, rfl, rfl, rfl, rfl, rfl⟩

/-- C7 (amended): deserialization of any record with an absent key — partial
or wholly absent alike — fails with the one fixed no-active-challenge error;
the missing keys are not identified. -/
theorem c7_any_absent_key_noAuthData (st : Storage)
    (h : st.get PKCE.ID_VERIFIER = none ∨ st.get PKCE.ID_CSRF = none ∨
         st.get PKCE.ID_NONCE = none) :
    PKCE.load_from st = Except.error noAuthDataErr := by
  unfold PKCE.load_from
  cases hV : st.get PKCE.ID_VERIFIER <;> cases hC : st.get PKCE.ID_CSRF <;>
    cases hN : st.get PKCE.ID_NONCE <;> simp_all

/-- Witness for the amended C7 at the partial record. -/
theorem c7_any_absent_key_noAuthData_witness :
    PKCE.load_from stVerifierOnly = Except.error noAuthDataErr :=
  c7_any_absent_key_noAuthData stVerifierOnly (Or.inr (Or.inl rfl))

/-- C8: the only storage keys the core ever writes — via `PKCE::store`,
`AuthManager::store` or `init_authentication` — are verifier, csrf and
nonce, and what is written there is exactly the challenge material; all
other keys are untouched, so tokens and claims are never persisted
(`exchange_token` and `load` only read the storage). -/
theorem c8_store_writes_only_challenge_keys :
    (∀ (p : PKCE) (st : Storage) (k : String),
      k ≠ PKCE.ID_VERIFIER → k ≠ PKCE.ID_CSRF → k ≠ PKCE.ID_NONCE →
      (p.store st).get k = st.get k)
    ∧ (∀ (m : AuthManager) (st : Storage) (k : String),
      k ≠ PKCE.ID_VERIFIER → k ≠ PKCE.ID_CSRF → k ≠ PKCE.ID_NONCE →
      (m.store st).get k = st.get k)
    ∧ (∀ (m : AuthManager) (fresh : Fresh) (st : Storage) (k : String),
      k ≠ PKCE.ID_VERIFIER → k ≠ PKCE.ID_CSRF → k ≠ PKCE.ID_NONCE →
      ((m.init_authentication fresh st).2.1).get k = st.get k)
    ∧ (∀ (p : PKCE) (st : Storage),
      (p.store st).get PKCE.ID_VERIFIER = some p.verifier ∧
      (p.store st).get PKCE.ID_CSRF = some p.csrf ∧
      (p.store st).get PKCE.ID_NONCE = some p.nonce) := by
  have hstore : ∀ (p : PKCE) (st : Storage) (k : String),
      k ≠ PKCE.ID_VERIFIER → k ≠ PKCE.ID_CSRF → k ≠ PKCE.ID_NONCE →
      (p.store st).get k = st.get k := by
    intro p st k h1 h2 h3
    simp [PKCE.store, Storage.set, h1, h2, h3]
  refine ⟨hstore, ?_, ?_, ?_⟩
  · intro m st k h1 h2 h3
    cases hp : m.pkce <;> simp [AuthManager.store, hp, hstore, h1, h2, h3]
  · intro m fresh st k h1 h2 h3
    cases hm : m.client <;>
      simp [AuthManager.init_authentication, AuthManager.store, hm, hstore,
        h1, h2, h3]
  · intro p st
    refine ⟨?_, ?_, ?_⟩ <;> simp [PKCE.store, Storage.set, PKCE.ID_VERIFIER,
      PKCE.ID_CSRF, PKCE.ID_NONCE]

/-- Witness for C8: a token-named key is untouched by a store. -/
theorem c8_store_writes_only_challenge_keys_witness :
    ((PKCE.new "v" "c" "n").store Storage.empty).get "access_token"
      = Storage.empty.get "access_token" :=
  c8_store_writes_only_challenge_keys.1 (PKCE.new "v" "c" "n") Storage.empty
    "access_token" (by decide) (by decide) (by decide)

/-- C10: with `code` and `state` both present `get_response` returns Ok —
an empty value is returned as the empty string, for a repeated key the last
occurrence's value wins (the `HashMap` collection), and all other query
parameters are ignored without error. -/
theorem c10_get_response_values (qs : List (String × String)) :
    (∀ code state,
      hashMapGet qs AuthManager.URL_AUTH_CODE = some code →
      hashMapGet qs AuthManager.URL_STATE = some state →
      AuthManager.get_response ⟨qs⟩ = Except.ok (code, state))
    ∧ (∀ key value, hashMapGet (qs ++ [(key, value)]) key = some value)
    ∧ AuthManager.get_response ⟨[("code", ""), ("state", "s")]⟩
        = Except.ok ("", "s")
    ∧ AuthManager.get_response
        ⟨[("code", "c1"), ("state", "s1"), ("code", "c2"), ("other", "x")]⟩
        = Except.ok ("c2", "s1") := by
  refine ⟨?_, ?_, rfl, rfl⟩
  · intro code state hc hs
    have h : qs ≠ [] := by
      intro h0
      rw [h0] at hc
      simp [hashMapGet] at hc
    simp [AuthManager.get_response, List.isEmpty_iff, h, hc, hs]
  · intro key value
    simp [hashMapGet, List.reverse_append]

/-- Witness for C10: extra parameters are ignored and the values returned. -/
theorem c10_get_response_values_witness :
    AuthManager.get_response ⟨[("state", "s1"), ("code", "c1"), ("junk", "j")]⟩
      = Except.ok ("c1", "s1") :=
  (c10_get_response_values [("state", "s1"), ("code", "c1"), ("junk", "j")]).1
    "c1" "s1" rfl rfl
